import Mathlib

/-!
Verification of the resume-relevance matching and scoring pipeline.

The definitions below are a shallow embedding of the Python sources
`backend/services/matcher.py`, `backend/services/scorer.py`,
`backend/utils/similarity.py` and `backend/services/feedback.py`.
Python floats are modelled as exact rationals, Python dicts with optional
keys as structures with `Option` fields (`.get(k, d)` becomes
`Option.getD`), and the external collaborators (fuzzywuzzy string ratios,
the sklearn TF-IDF vectorizer, the rank_bm25 scorer, the generative-text
service) are passed in as function parameters, since their code is not
part of this repository.  Exceptions are modelled with `Except`-valued
function bodies and explicit catch wrappers mirroring the source
`try/except` blocks.
-/

namespace ResumeRelevance

/-- Python `round` (banker's rounding, round half to even) on a rational,
to an integer.  Used to model `round(x, 2)` in `scorer.py`. -/
def pyRoundInt (q : ℚ) : ℤ :=
  let f := ⌊q⌋
  let frac := q - (f : ℚ)
  if frac < 1/2 then f
  else if 1/2 < frac then f + 1
  else if f % 2 = 0 then f else f + 1

/-- Python `round(x, 2)`: round to two decimal places, half to even. -/
def round2 (q : ℚ) : ℚ := ((pyRoundInt (q * 100) : ℤ) : ℚ) / 100

/-- A character counted by Python's regex `\w` (ASCII model). -/
def isWordChar (c : Char) : Bool := c.isAlphanum || c = '_'

/-- Collect the maximal runs of characters satisfying `p`; the second
argument is the (reversed) run currently being built. -/
def collectRunsAux (p : Char → Bool) : List Char → List Char → List String
  | [], acc => if acc.isEmpty then [] else [String.mk acc.reverse]
  | c :: cs, acc =>
    if p c then collectRunsAux p cs (c :: acc)
    else if acc.isEmpty then collectRunsAux p cs []
    else String.mk acc.reverse :: collectRunsAux p cs []

/-- Lowercase a text and split it into maximal runs of word characters.
This is both `ResumeJobMatcher.preprocess_text` (which uses
`re.findall(r'\b\w+\b', text.lower())`) and
`SimilarityCalculator.tokenize_text` (which replaces `[^\w\s]` by spaces,
collapses whitespace, lowercases and splits): both produce exactly the
maximal `\w`-runs of the lowercased text. -/
def wordTokens (text : String) : List String :=
  collectRunsAux isWordChar (text.data.map Char.toLower) []

/-- Python `str.lower()`, character by character (ASCII model). -/
def lowerStr (s : String) : String := String.mk (s.data.map Char.toLower)

/-! ### `backend/services/matcher.py`: `ResumeJobMatcher` -/

/-- Result dictionary of `ResumeJobMatcher.exact_skill_match`. -/
structure ExactSkillMatchResult where
  matched_skills : List String
  missing_skills : List String
  match_percentage : ℚ
  matched_count : ℕ
  total_required : ℕ
deriving DecidableEq

/-- `ResumeJobMatcher.exact_skill_match` (matcher.py lines 25-47):
case-insensitive membership of each job skill in the resume skills. -/
def exact_skill_match (resume_skills job_skills : List String) : ExactSkillMatchResult :=
  let resume_skills_lower := resume_skills.map lowerStr
  let job_skills_lower := job_skills.map lowerStr
  let matched := job_skills_lower.filter (fun j => resume_skills_lower.contains j)
  let missing := job_skills_lower.filter (fun j => !(resume_skills_lower.contains j))
  { matched_skills := matched
    missing_skills := missing
    match_percentage :=
      if job_skills_lower.isEmpty then 0
      else ((matched.length : ℚ) / (job_skills_lower.length : ℚ)) * 100
    matched_count := matched.length
    total_required := job_skills_lower.length }

/-- One entry of `fuzzy_skill_match`'s `matched_skills` list. -/
structure FuzzyMatchedSkill where
  job_skill : String
  resume_skill : Option String
  similarity : ℕ
deriving DecidableEq

/-- Result dictionary of `ResumeJobMatcher.fuzzy_skill_match`. -/
structure FuzzySkillMatchResult where
  matched_skills : List FuzzyMatchedSkill
  missing_skills : List String
  skill_similarities : List (String × ℕ)
  fuzzy_match_percentage : ℚ
  threshold_used : ℕ
deriving DecidableEq

/-- The per-pair score of matcher.py lines 61-66: the maximum of the three
fuzzywuzzy ratios (`fuzz.ratio`, `fuzz.partial_ratio`,
`fuzz.token_sort_ratio`, supplied as the external collaborators
`ratioFn partialFn tokenFn`) on the lowercased pair. -/
def pairScore (ratioFn partialFn tokenFn : String → String → ℕ)
    (job_skill resume_skill : String) : ℕ :=
  max (ratioFn (lowerStr job_skill) (lowerStr resume_skill))
    (max (partialFn (lowerStr job_skill) (lowerStr resume_skill))
      (tokenFn (lowerStr job_skill) (lowerStr resume_skill)))

/-- The inner loop of `fuzzy_skill_match` (matcher.py lines 56-70): fold
over the resume skills keeping the best score and the best-scoring resume
skill, updating only on a strictly greater score (so the first resume
skill attaining the maximum is kept). -/
def fuzzBest (score : String → String → ℕ) (resume_skills : List String)
    (job_skill : String) : ℕ × Option String :=
  resume_skills.foldl
    (fun acc r => if acc.1 < score job_skill r then (score job_skill r, some r) else acc)
    (0, none)

/-- `ResumeJobMatcher.fuzzy_skill_match` (matcher.py lines 49-90). -/
def fuzzy_skill_match (ratioFn partialFn tokenFn : String → String → ℕ)
    (resume_skills job_skills : List String) (threshold : ℕ := 80) :
    FuzzySkillMatchResult :=
  let score := pairScore ratioFn partialFn tokenFn
  let matched := job_skills.filterMap (fun j =>
    let best := fuzzBest score resume_skills j
    if threshold ≤ best.1 then some ⟨j, best.2, best.1⟩ else none)
  let missing := job_skills.filter (fun j => (fuzzBest score resume_skills j).1 < threshold)
  let sims := job_skills.filterMap (fun j =>
    let best := fuzzBest score resume_skills j
    if threshold ≤ best.1 then some (j, best.1) else none)
  { matched_skills := matched
    missing_skills := missing
    skill_similarities := sims
    fuzzy_match_percentage :=
      if job_skills.isEmpty then 0
      else ((matched.length : ℚ) / (job_skills.length : ℚ)) * 100
    threshold_used := threshold }

/-! ### `backend/utils/similarity.py`: `SimilarityCalculator` -/

/-- `SimilarityCalculator.tokenize_text`: preprocess (strip punctuation,
collapse whitespace, lowercase) then split into words.  See `wordTokens`. -/
def tokenize_text (text : String) : List String := wordTokens text

/-- Result dictionary of `calculate_tfidf_similarity` (similarity.py lines
42-81).  The `text1_top_features`/`text2_top_features` lists are produced
from the external vectorizer state and are omitted from the model. -/
structure TfidfSimilarityResult where
  similarity_score : ℚ
  similarity_percentage : ℚ
  error : Option String := none
deriving DecidableEq

/-- `SimilarityCalculator.calculate_tfidf_similarity`: fit the external
sklearn TF-IDF vectorizer on the two preprocessed texts and take the
cosine similarity; the vectorizer (which may raise, e.g. on an empty
vocabulary) is the collaborator `engine`, and the `except` branch
(lines 75-81) returns the zeroed dictionary carrying an `error` field. -/
def calculate_tfidf_similarity (engine : String → String → Except String ℚ)
    (text1 text2 : String) : TfidfSimilarityResult :=
  match engine text1 text2 with
  | .ok s => { similarity_score := s, similarity_percentage := s * 100 }
  | .error e => { similarity_score := 0, similarity_percentage := 0, error := some e }

/-- Result dictionary of `calculate_bm25_similarity` (similarity.py lines
83-122). -/
structure Bm25SimilarityResult where
  bm25_score : ℚ
  normalized_score : ℚ
  similarity_percentage : ℚ
  score1_vs_2 : ℚ
  score2_vs_1 : ℚ
  error : Option String := none
deriving DecidableEq

/-- `SimilarityCalculator.calculate_bm25_similarity`: the external
rank_bm25 scorer (collaborator `engine`) yields the two directional
scores on the token lists; the method averages them, normalizes by
`min(avg/10, 1)` and scales to a percentage.  The `except` branch
returns the zeroed dictionary with an `error` field. -/
def calculate_bm25_similarity (engine : List String → List String → Except String (ℚ × ℚ))
    (text1 text2 : String) : Bm25SimilarityResult :=
  match engine (tokenize_text text1) (tokenize_text text2) with
  | .ok s =>
    let avg_score := (s.1 + s.2) / 2
    let normalized := min (avg_score / 10) 1
    { bm25_score := avg_score
      normalized_score := normalized
      similarity_percentage := normalized * 100
      score1_vs_2 := s.1
      score2_vs_1 := s.2 }
  | .error e =>
    { bm25_score := 0, normalized_score := 0, similarity_percentage := 0
      score1_vs_2 := 0, score2_vs_1 := 0, error := some e }

/-- Result dictionary of `calculate_jaccard_similarity` (similarity.py
lines 124-159).  Python builds the token sets with `set()`; the model
uses `List.dedup`, which preserves first-occurrence order (the sampled
token lists are capped for readability, as in the source). -/
structure JaccardResult where
  jaccard_score : ℚ
  similarity_percentage : ℚ
  intersection_size : ℕ
  union_size : ℕ
  common_tokens : List String
  unique_to_text1 : List String
  unique_to_text2 : List String
  error : Option String := none
deriving DecidableEq

/-- `SimilarityCalculator.calculate_jaccard_similarity`: similarity =
intersection size over union size of the two token sets, guarded to 0
when the union is empty. -/
def calculate_jaccard_similarity (text1 text2 : String) : JaccardResult :=
  let tokens1 := (tokenize_text text1).dedup
  let tokens2 := (tokenize_text text2).dedup
  let inter := tokens1.filter (fun t => tokens2.contains t)
  let union := (tokens1 ++ tokens2).dedup
  let jaccard_score : ℚ := if 0 < union.length then (inter.length : ℚ) / (union.length : ℚ) else 0
  { jaccard_score := jaccard_score
    similarity_percentage := jaccard_score * 100
    intersection_size := inter.length
    union_size := union.length
    common_tokens := inter.take 20
    unique_to_text1 := (tokens1.filter (fun t => !(tokens2.contains t))).take 10
    unique_to_text2 := (tokens2.filter (fun t => !(tokens1.contains t))).take 10 }

/-- Result dictionary of `calculate_word_overlap` (similarity.py lines
161-196).  Source field names `overlap_ratio_text1`,
`overlap_ratio_text2` and `average_overlap_ratio` are rendered here as
`overlap_frac_text1`, `overlap_frac_text2` and `average_overlap_frac`. -/
structure WordOverlapResult where
  word_overlap_count : ℕ
  overlap_frac_text1 : ℚ
  overlap_frac_text2 : ℚ
  average_overlap_frac : ℚ
  similarity_percentage : ℚ
  text1_unique_words : ℕ
  text2_unique_words : ℕ
  error : Option String := none
deriving DecidableEq

/-- `SimilarityCalculator.calculate_word_overlap`: the symmetric average
of the two directional overlap fractions, each guarded to 0 when the
corresponding token set is empty. -/
def calculate_word_overlap (text1 text2 : String) : WordOverlapResult :=
  let set1 := (tokenize_text text1).dedup
  let set2 := (tokenize_text text2).dedup
  let overlap := (set1.filter (fun t => set2.contains t)).length
  let frac1 : ℚ := if 0 < set1.length then (overlap : ℚ) / (set1.length : ℚ) else 0
  let frac2 : ℚ := if 0 < set2.length then (overlap : ℚ) / (set2.length : ℚ) else 0
  let avg := (frac1 + frac2) / 2
  { word_overlap_count := overlap
    overlap_frac_text1 := frac1
    overlap_frac_text2 := frac2
    average_overlap_frac := avg
    similarity_percentage := avg * 100
    text1_unique_words := set1.length - overlap
    text2_unique_words := set2.length - overlap }

/-- Result of `calculate_comprehensive_similarity` (similarity.py lines
198-246), flattening the nested `comprehensive_similarity` /
`individual_scores` dictionaries. -/
structure ComprehensiveSimilarityResult where
  weighted_average : ℚ
  individual_tfidf : ℚ
  individual_bm25 : ℚ
  individual_jaccard : ℚ
  individual_word_overlap : ℚ
  error : Option String := none
deriving DecidableEq

/-- `SimilarityCalculator.calculate_comprehensive_similarity`: run all
four similarity methods on the pair and combine their percentages with
the fixed weights 0.4 / 0.3 / 0.2 / 0.1 (lines 207-215; every result
dictionary carries a `similarity_percentage` key, so the `.get` defaults
never fire). -/
def calculate_comprehensive_similarity
    (tfidfEngine : String → String → Except String ℚ)
    (bm25Engine : List String → List String → Except String (ℚ × ℚ))
    (text1 text2 : String) : ComprehensiveSimilarityResult :=
  let tfidf_result := calculate_tfidf_similarity tfidfEngine text1 text2
  let bm25_result := calculate_bm25_similarity bm25Engine text1 text2
  let jaccard_result := calculate_jaccard_similarity text1 text2
  let overlap_result := calculate_word_overlap text1 text2
  { weighted_average :=
      tfidf_result.similarity_percentage * (4/10) +
      bm25_result.similarity_percentage * (3/10) +
      jaccard_result.similarity_percentage * (2/10) +
      overlap_result.similarity_percentage * (1/10)
    individual_tfidf := tfidf_result.similarity_percentage
    individual_bm25 := bm25_result.similarity_percentage
    individual_jaccard := jaccard_result.similarity_percentage
    individual_word_overlap := overlap_result.similarity_percentage }

/-! ### `matcher.py` continued: BM25 / TF-IDF wrappers, aggregation -/

/-- Result dictionary of `ResumeJobMatcher.keyword_match_bm25` (matcher.py
lines 92-124).  `top_matching_terms` is computed from the external BM25
state and is omitted from the model. -/
structure Bm25MatchResult where
  bm25_score : ℚ
  normalized_score : ℚ
deriving DecidableEq

/-- `ResumeJobMatcher.keyword_match_bm25`: preprocess both texts, score
the resume against the job token list via the external rank_bm25
collaborator `engine`, and normalize by `min(score/10, 1) * 100`.  The
`except` branch (lines 118-124) returns the zeroed dictionary. -/
def keyword_match_bm25 (engine : List String → List String → Except String ℚ)
    (resume_text job_text : String) : Bm25MatchResult :=
  match engine (wordTokens resume_text) (wordTokens job_text) with
  | .ok job_score => { bm25_score := job_score, normalized_score := min (job_score / 10) 1 * 100 }
  | .error _ => { bm25_score := 0, normalized_score := 0 }

/-- Result dictionary of `ResumeJobMatcher.tfidf_similarity` (matcher.py
lines 126-162).  `top_job_features` and the vector sizes come from the
external vectorizer state and are omitted from the model. -/
structure TfidfMatchResult where
  tfidf_similarity : ℚ
  similarity_percentage : ℚ
deriving DecidableEq

/-- `ResumeJobMatcher.tfidf_similarity`: cosine similarity from the
external sklearn vectorizer (collaborator `engine`); the `except` branch
(lines 154-162) returns the zeroed dictionary. -/
def matcher_tfidf_similarity (engine : String → String → Except String ℚ)
    (resume_text job_text : String) : TfidfMatchResult :=
  match engine resume_text job_text with
  | .ok s => { tfidf_similarity := s, similarity_percentage := s * 100 }
  | .error _ => { tfidf_similarity := 0, similarity_percentage := 0 }

/-- An experience entry of the resume dictionary: an optional `years`
value (Python stores ints or strings; the model keeps the string form
and parses with `String.toInt?`, mirroring `int(exp['years'])`). -/
structure ExperienceRecord where
  years : Option String := none
  description : Option String := none
deriving DecidableEq

/-- An education entry of the resume dictionary. -/
structure EducationRecord where
  degree : Option String := none
deriving DecidableEq

/-- The resume mapping consumed by `comprehensive_match`; every key is
optional and defaults via `.get` in the source. -/
structure ResumeData where
  skills : Option (List String) := none
  clean_text : Option String := none
  experience : Option (List ExperienceRecord) := none
  education : Option (List EducationRecord) := none
deriving DecidableEq

/-- The job mapping consumed by `comprehensive_match` and the feedback
generator. -/
structure JobData where
  title : Option String := none
  company : Option String := none
  required_skills : Option (List String) := none
  preferred_skills : Option (List String) := none
  experience_requirements : Option (List String) := none
  education_requirements : Option (List String) := none
  clean_text : Option String := none
deriving DecidableEq

/-- Result of `ResumeJobMatcher._match_experience` (matcher.py lines
203-225). -/
structure ExperienceMatchResult where
  resume_max_years : ℤ
  has_experience : Bool
  experience_details : List ExperienceRecord
deriving DecidableEq

/-- `ResumeJobMatcher._match_experience`: collect the parseable numeric
`years` fields, take their maximum (0 when none parse), and flag
`has_experience` when the resume has at least one experience record. -/
def matchExperience (resume_data : ResumeData) (_job_data : JobData) : ExperienceMatchResult :=
  let resume_exp := resume_data.experience.getD []
  let resume_years := resume_exp.filterMap (fun r => r.years.bind String.toInt?)
  { resume_max_years := (resume_years.max?).getD 0
    has_experience := !resume_exp.isEmpty
    experience_details := resume_exp.take 3 }

/-- Result of `ResumeJobMatcher._match_education` (matcher.py lines
227-240). -/
structure EducationMatchResult where
  has_degree : Bool
  education_types : List String
  education_details : List EducationRecord
deriving DecidableEq

/-- `ResumeJobMatcher._match_education`: `has_degree` iff the resume has
at least one education record. -/
def matchEducation (resume_data : ResumeData) (_job_data : JobData) : EducationMatchResult :=
  let resume_edu := resume_data.education.getD []
  { has_degree := !resume_edu.isEmpty
    education_types := resume_edu.map (fun e => e.degree.getD (""))
    education_details := resume_edu }

/-- The `overall_metrics` summary of the MatchReport. -/
structure OverallMetrics where
  skills_covered : ℚ
  text_similarity : ℚ
  keyword_relevance : ℚ
deriving DecidableEq

/-- The MatchReport: output mapping of `comprehensive_match`.  Every
section is optional (the error report produced by the `except` branch
carries none of them), matching the `.get(key, {})` reads in
`scorer.py`. -/
structure MatchReport where
  exact_skill_match : Option ExactSkillMatchResult := none
  fuzzy_skill_match : Option FuzzySkillMatchResult := none
  bm25_match : Option Bm25MatchResult := none
  tfidf_match : Option TfidfMatchResult := none
  experience_match : Option ExperienceMatchResult := none
  education_match : Option EducationMatchResult := none
  overall_metrics : Option OverallMetrics := none
  error : Option String := none
deriving DecidableEq

/-- The MatchReport `{'error': str(e)}` returned by the `except` branch of
`comprehensive_match` (matcher.py line 201): only the `error` field. -/
def MatchReport.errorOnly (e : String) : MatchReport := { error := some e }

/-- Body of `ResumeJobMatcher.comprehensive_match` (matcher.py lines
166-197), as the `try` block: in this typed model none of the guarded
operations can fail (each similarity wrapper catches its own collaborator
failure), so the body always succeeds. -/
def comprehensive_match_body
    (ratioFn partialFn tokenFn : String → String → ℕ)
    (bm25Engine : List String → List String → Except String ℚ)
    (tfidfEngine : String → String → Except String ℚ)
    (resume_data : ResumeData) (job_data : JobData) : Except String MatchReport :=
  let resume_skills := resume_data.skills.getD []
  let job_required_skills := job_data.required_skills.getD []
  let job_preferred_skills := job_data.preferred_skills.getD []
  let resume_text := resume_data.clean_text.getD ("")
  let job_text := job_data.clean_text.getD ("")
  let exact_match := exact_skill_match resume_skills job_required_skills
  let fuzzy_match := fuzzy_skill_match ratioFn partialFn tokenFn resume_skills
    (job_required_skills ++ job_preferred_skills) 80
  let bm25_match := keyword_match_bm25 bm25Engine resume_text job_text
  let tfidf_match := matcher_tfidf_similarity tfidfEngine resume_text job_text
  let experience_match := matchExperience resume_data job_data
  let education_match := matchEducation resume_data job_data
  Except.ok
    { exact_skill_match := some exact_match
      fuzzy_skill_match := some fuzzy_match
      bm25_match := some bm25_match
      tfidf_match := some tfidf_match
      experience_match := some experience_match
      education_match := some education_match
      overall_metrics := some
        { skills_covered := exact_match.match_percentage
          text_similarity := tfidf_match.similarity_percentage
          keyword_relevance := bm25_match.normalized_score } }

/-- The `try/except` wrapper of `comprehensive_match` (matcher.py lines
199-201): any exception propagated out of the body becomes the
error-only MatchReport. -/
def matchCatch (r : Except String MatchReport) : MatchReport :=
  match r with
  | .ok m => m
  | .error e => MatchReport.errorOnly e

/-- `ResumeJobMatcher.comprehensive_match` (matcher.py lines 164-201). -/
def comprehensive_match
    (ratioFn partialFn tokenFn : String → String → ℕ)
    (bm25Engine : List String → List String → Except String ℚ)
    (tfidfEngine : String → String → Except String ℚ)
    (resume_data : ResumeData) (job_data : JobData) : MatchReport :=
  matchCatch (comprehensive_match_body ratioFn partialFn tokenFn bm25Engine tfidfEngine
    resume_data job_data)

/-! ### `backend/services/scorer.py`: `RelevanceScorer` -/

/-- The scorer configuration read from `Config` in `RelevanceScorer.__init__`
(scorer.py lines 6-10), with the defaults of `backend/config.py`. -/
structure ScorerConfig where
  semantic_weight : ℚ := 0.6
  keyword_weight : ℚ := 0.4
  high_threshold : ℚ := 75
  medium_threshold : ℚ := 50
deriving DecidableEq

/-- The default configuration (`SEMANTIC_WEIGHT = 0.6`, `KEYWORD_WEIGHT =
0.4`, thresholds 75 / 50). -/
def defaultScorerConfig : ScorerConfig := {}

/-- `match_results.get('exact_skill_match', {}).get('match_percentage', 0)`. -/
def MatchReport.exact_pct (m : MatchReport) : ℚ :=
  (m.exact_skill_match.map ExactSkillMatchResult.match_percentage).getD 0

/-- `match_results.get('fuzzy_skill_match', {}).get('fuzzy_match_percentage', 0)`. -/
def MatchReport.fuzzy_pct (m : MatchReport) : ℚ :=
  (m.fuzzy_skill_match.map FuzzySkillMatchResult.fuzzy_match_percentage).getD 0

/-- `match_results.get('bm25_match', {}).get('normalized_score', 0)`. -/
def MatchReport.bm25_norm (m : MatchReport) : ℚ :=
  (m.bm25_match.map Bm25MatchResult.normalized_score).getD 0

/-- `match_results.get('tfidf_match', {}).get('similarity_percentage', 0)`. -/
def MatchReport.tfidf_pct (m : MatchReport) : ℚ :=
  (m.tfidf_match.map TfidfMatchResult.similarity_percentage).getD 0

/-- `match_results.get('experience_match', {}).get('has_experience', False)`. -/
def MatchReport.has_experience (m : MatchReport) : Bool :=
  (m.experience_match.map ExperienceMatchResult.has_experience).getD false

/-- `match_results.get('education_match', {}).get('has_degree', False)`. -/
def MatchReport.has_degree (m : MatchReport) : Bool :=
  (m.education_match.map EducationMatchResult.has_degree).getD false

/-- `RelevanceScorer.calculate_keyword_score` (scorer.py lines 12-31):
weighted combination 0.5 / 0.3 / 0.2 of the three keyword signals,
capped at 100.  The `try` body is total in this model, so the `except`
branch returning 0.0 is unreachable. -/
def calculate_keyword_score (match_results : MatchReport) : ℚ :=
  min (match_results.exact_pct * 0.5 +
       match_results.fuzzy_pct * 0.3 +
       match_results.bm25_norm * 0.2) 100

/-- `RelevanceScorer.calculate_semantic_score` (scorer.py lines 33-51):
TF-IDF percentage alone, or blended 0.4 / 0.6 with the externally
supplied embedding similarity, capped at 100. -/
def calculate_semantic_score (match_results : MatchReport)
    (embedding_similarity : Option ℚ) : ℚ :=
  let tfidf_score := match_results.tfidf_pct
  match embedding_similarity with
  | some emb => min (tfidf_score * 0.4 + emb * 0.6) 100
  | none => min tfidf_score 100

/-- `RelevanceScorer.calculate_weighted_score` (scorer.py lines 53-65):
semantic and keyword sub-scores blended with the configured weights,
capped at 100. -/
def calculate_weighted_score (cfg : ScorerConfig) (keyword_score semantic_score : ℚ) : ℚ :=
  min (semantic_score * cfg.semantic_weight + keyword_score * cfg.keyword_weight) 100

/-- `RelevanceScorer.calculate_bonus_scores` (scorer.py lines 67-91):
+5 for experience, +3 for a degree, +7 for an exact skill match above
80%, capped at 15. -/
def calculate_bonus_scores (match_results : MatchReport) : ℚ :=
  let b1 : ℚ := if match_results.has_experience then 5 else 0
  let b2 : ℚ := if match_results.has_degree then 3 else 0
  let b3 : ℚ := if 80 < match_results.exact_pct then 7 else 0
  min (b1 + b2 + b3) 15

/-- `RelevanceScorer.determine_verdict` (scorer.py lines 93-100). -/
def determine_verdict (cfg : ScorerConfig) (final_score : ℚ) : String :=
  if cfg.high_threshold ≤ final_score then "High"
  else if cfg.medium_threshold ≤ final_score then "Medium"
  else "Low"

/-- The nested `score_breakdown` dictionary of the scoring result
(scorer.py lines 123-132). -/
structure ScoreDetail where
  keyword_score : ℚ
  semantic_score : ℚ
  base_weighted_score : ℚ
  bonus_score : ℚ
  semantic_weight : ℚ
  keyword_weight : ℚ
deriving DecidableEq

/-- The ScoreBreakdown: result mapping of `calculate_comprehensive_score`.
The `score_breakdown` and threshold entries are absent from the zeroed
error result (scorer.py lines 143-147), hence optional. -/
structure ScoreBreakdown where
  final_score : ℚ
  verdict : String
  score_breakdown : Option ScoreDetail := none
  high_threshold : Option ℚ := none
  medium_threshold : Option ℚ := none
  error : Option String := none
deriving DecidableEq

/-- Body of `RelevanceScorer.calculate_comprehensive_score` (the `try`
block, scorer.py lines 104-139); total in this typed model, so it always
succeeds.  All reported sub-scores are rounded to two decimals; the
verdict is determined from the unrounded final score (line 117). -/
def comprehensive_score_body (cfg : ScorerConfig) (match_results : MatchReport)
    (embedding_similarity : Option ℚ) : Except String ScoreBreakdown :=
  let keyword_score := calculate_keyword_score match_results
  let semantic_score := calculate_semantic_score match_results embedding_similarity
  let bonus_score := calculate_bonus_scores match_results
  let base_weighted_score := calculate_weighted_score cfg keyword_score semantic_score
  let final_score := min (base_weighted_score + bonus_score) 100
  let verdict := determine_verdict cfg final_score
  Except.ok
    { final_score := round2 final_score
      verdict := verdict
      score_breakdown := some
        { keyword_score := round2 keyword_score
          semantic_score := round2 semantic_score
          base_weighted_score := round2 base_weighted_score
          bonus_score := round2 bonus_score
          semantic_weight := cfg.semantic_weight
          keyword_weight := cfg.keyword_weight }
      high_threshold := some cfg.high_threshold
      medium_threshold := some cfg.medium_threshold }

/-- The `try/except` wrapper of `calculate_comprehensive_score`
(scorer.py lines 141-147): any exception propagated out of the body
becomes the zeroed breakdown with verdict "Low" and an `error` field. -/
def scoreCatch (r : Except String ScoreBreakdown) : ScoreBreakdown :=
  match r with
  | .ok s => s
  | .error e => { final_score := 0, verdict := "Low", error := some e }

/-- `RelevanceScorer.calculate_comprehensive_score` (scorer.py lines
102-147). -/
def calculate_comprehensive_score (cfg : ScorerConfig) (match_results : MatchReport)
    (embedding_similarity : Option ℚ) : ScoreBreakdown :=
  scoreCatch (comprehensive_score_body cfg match_results embedding_similarity)

/-! ### `backend/services/feedback.py`: `FeedbackGenerator` -/

/-- `scoring_results.get('score_breakdown', {}).get('keyword_score', 0)`. -/
def ScoreBreakdown.keyword_entry (s : ScoreBreakdown) : ℚ :=
  (s.score_breakdown.map ScoreDetail.keyword_score).getD 0

/-- `scoring_results.get('score_breakdown', {}).get('semantic_score', 0)`. -/
def ScoreBreakdown.semantic_entry (s : ScoreBreakdown) : ℚ :=
  (s.score_breakdown.map ScoreDetail.semantic_score).getD 0

/-- The context dictionary built by
`FeedbackGenerator._prepare_feedback_context` (feedback.py lines 49-67). -/
structure FeedbackContext where
  job_title : String
  company : String
  relevance_score : ℚ
  verdict : String
  matched_skills : List String
  missing_skills : List String
  resume_skills : List String
  job_required_skills : List String
  job_preferred_skills : List String
  has_experience : Bool
  has_degree : Bool
  keyword_score : ℚ
  semantic_score : ℚ
deriving DecidableEq

/-- `FeedbackGenerator._prepare_feedback_context`: assemble the prompt
context from the four input mappings, with the source defaults for
absent keys. -/
def prepare_feedback_context (resume_data : ResumeData) (job_data : JobData)
    (scoring_results : ScoreBreakdown) (match_results : MatchReport) : FeedbackContext :=
  { job_title := job_data.title.getD ("Position")
    company := job_data.company.getD ("Company")
    relevance_score := scoring_results.final_score
    verdict := scoring_results.verdict
    matched_skills := (match_results.exact_skill_match.map
      ExactSkillMatchResult.matched_skills).getD []
    missing_skills := (match_results.exact_skill_match.map
      ExactSkillMatchResult.missing_skills).getD []
    resume_skills := resume_data.skills.getD []
    job_required_skills := job_data.required_skills.getD []
    job_preferred_skills := job_data.preferred_skills.getD []
    has_experience := match_results.has_experience
    has_degree := match_results.has_degree
    keyword_score := scoring_results.keyword_entry
    semantic_score := scoring_results.semantic_entry }

/-- Join a list of skill names with commas, as Python `', '.join(...)`. -/
def joinComma (l : List String) : String := String.intercalate (", ") l

/-- The `score >= 75` branch of `_generate_fallback_feedback`
(feedback.py lines 110-114). -/
def highTierFeedback (matched_skills missing_skills : List String) : String :=
  "Excellent match! Your resume shows strong alignment with the job requirements. " ++
  ("You have " ++ toString matched_skills.length ++ " key skills that match perfectly. " ++
   (if !missing_skills.isEmpty then
      "To further strengthen your profile, consider gaining experience in: " ++
      joinComma (missing_skills.take 3) ++ "."
    else ""))

/-- The `score >= 50` branch of `_generate_fallback_feedback`
(feedback.py lines 116-120). -/
def mediumTierFeedback (matched_skills missing_skills : List String) : String :=
  "Good foundation! Your resume has moderate alignment with the job requirements. " ++
  ("You match " ++ toString matched_skills.length ++ " key skills. " ++
   ("Focus on developing these critical skills: " ++ joinComma (missing_skills.take 5) ++ ". " ++
    "Consider adding relevant projects or certifications in these areas."))

/-- The final `else` branch of `_generate_fallback_feedback`
(feedback.py lines 122-126). -/
def lowTierFeedback (missing_skills : List String) : String :=
  "Significant gaps identified. Your resume needs substantial improvements for this role. " ++
  ("Priority skills to develop: " ++ joinComma (missing_skills.take 5) ++ ". " ++
   ("Consider taking online courses, building projects, or gaining certifications in these areas. " ++
    "Focus on the most in-demand skills first."))

/-- `FeedbackGenerator._generate_fallback_feedback` (feedback.py lines
103-128): deterministic rule-based feedback branching only on the
final-score tier.  The `verdict` entry is read (line 106) but never
used. -/
def generate_fallback_feedback (scoring_results : ScoreBreakdown)
    (match_results : MatchReport) : String :=
  let score := scoring_results.final_score
  let missing_skills := (match_results.exact_skill_match.map
    ExactSkillMatchResult.missing_skills).getD []
  let matched_skills := (match_results.exact_skill_match.map
    ExactSkillMatchResult.matched_skills).getD []
  if 75 ≤ score then highTierFeedback matched_skills missing_skills
  else if 50 ≤ score then mediumTierFeedback matched_skills missing_skills
  else lowTierFeedback missing_skills

/-- `FeedbackGenerator.generate_personalized_feedback` (feedback.py lines
26-47).  `llm` is the optional external generative-text collaborator
(`self.llm`, `None` when no credentials are configured); its invocation,
fed the context assembled by `_prepare_feedback_context`, may fail, and
any failure falls back to the rule-based feedback (lines 45-47). -/
def generate_personalized_feedback
    (llm : Option (FeedbackContext → Except String String))
    (resume_data : ResumeData) (job_data : JobData)
    (scoring_results : ScoreBreakdown) (match_results : MatchReport) : String :=
  match llm with
  | none => generate_fallback_feedback scoring_results match_results
  | some invoke =>
    match invoke (prepare_feedback_context resume_data job_data scoring_results match_results) with
    | .ok response => response.trim
    | .error _ => generate_fallback_feedback scoring_results match_results

/-- The final-score tier of the fallback feedback: 2 for `score >= 75`,
1 for `score >= 50`, 0 otherwise.  Stated from the spec's wording
("branches only on final_score tier") for the refinement comparison. -/
def feedbackTier (score : ℚ) : ℕ :=
  if 75 ≤ score then 2 else if 50 ≤ score then 1 else 0

/-- The fallback feedback as a function of the tier and the matched /
missing skill lists alone.  Stated from the spec's wording: the fallback
path is "fully deterministic" and "branches only on final_score tier
(≥75 / ≥50 / else), referencing counts of matched/missing skills". -/
def tierFeedbackText (tier : ℕ) (matched_skills missing_skills : List String) : String :=
  if tier = 2 then highTierFeedback matched_skills missing_skills
  else if tier = 1 then mediumTierFeedback matched_skills missing_skills
  else lowTierFeedback missing_skills

/-! ### Helper lemmas -/

theorem pyRoundInt_nonneg (q : ℚ) (hq : 0 ≤ q) : 0 ≤ pyRoundInt q := by
  unfold pyRoundInt
  have h0 : (0 : ℤ) ≤ ⌊q⌋ := Int.floor_nonneg.mpr hq
  dsimp only
  split_ifs <;> omega

theorem pyRoundInt_le (q : ℚ) (n : ℤ) (h : q ≤ (n : ℚ)) : pyRoundInt q ≤ n := by
  unfold pyRoundInt
  have hf : ⌊q⌋ ≤ n := by
    have := Int.floor_le_floor h
    simpa using this
  have hfq : ((⌊q⌋ : ℚ)) ≤ q := Int.floor_le q
  dsimp only
  split_ifs with h1 h2 h3
  · exact hf
  · have hlt : ((⌊q⌋ : ℚ)) < (n : ℚ) := by linarith
    have : ⌊q⌋ < n := by exact_mod_cast hlt
    omega
  · exact hf
  · have heq : q - ((⌊q⌋ : ℚ)) = 1/2 := le_antisymm (not_lt.mp h2) (not_lt.mp h1)
    have hlt : ((⌊q⌋ : ℚ)) < (n : ℚ) := by linarith
    have : ⌊q⌋ < n := by exact_mod_cast hlt
    omega

theorem round2_nonneg (q : ℚ) (hq : 0 ≤ q) : 0 ≤ round2 q := by
  unfold round2
  have : (0 : ℤ) ≤ pyRoundInt (q * 100) := pyRoundInt_nonneg _ (by linarith)
  positivity

theorem round2_le_hundred (q : ℚ) (hq : q ≤ 100) : round2 q ≤ 100 := by
  unfold round2
  have h : pyRoundInt (q * 100) ≤ (10000 : ℤ) := pyRoundInt_le _ _ (by push_cast; linarith)
  have : ((pyRoundInt (q * 100) : ℤ) : ℚ) ≤ 10000 := by exact_mod_cast h
  linarith

theorem le_foldl_max {α : Type} (f : α → ℕ) :
    ∀ (l : List α) (b : ℕ), b ≤ l.foldl (fun a r => max a (f r)) b := by
  intro l
  induction l with
  | nil => intro b; exact le_rfl
  | cons x xs ih =>
    intro b
    calc b ≤ max b (f x) := le_max_left _ _
    _ ≤ xs.foldl (fun a r => max a (f r)) (max b (f x)) := ih _

theorem le_foldl_max_of_mem {α : Type} (f : α → ℕ) :
    ∀ (l : List α) (b : ℕ) (x : α), x ∈ l → f x ≤ l.foldl (fun a r => max a (f r)) b := by
  intro l
  induction l with
  | nil => intro b x hx; cases hx
  | cons y ys ih =>
    intro b x hx
    rcases List.mem_cons.mp hx with rfl | hmem
    · calc f x ≤ max b (f x) := le_max_right _ _
      _ ≤ ys.foldl (fun a r => max a (f r)) (max b (f x)) := le_foldl_max _ _ _
    · exact ih _ _ hmem

theorem fuzzBest_fold_fst (score : String → String → ℕ) (j : String) :
    ∀ (rs : List String) (b : ℕ) (m : Option String),
      (rs.foldl (fun acc r => if acc.1 < score j r then (score j r, some r) else acc) (b, m)).1
        = rs.foldl (fun a r => max a (score j r)) b := by
  intro rs
  induction rs with
  | nil => intro b m; rfl
  | cons r rs ih =>
    intro b m
    simp only [List.foldl_cons]
    by_cases hbs : b < score j r
    · rw [if_pos hbs, ih, Nat.max_eq_right (le_of_lt hbs)]
    · rw [if_neg hbs, ih, Nat.max_eq_left (not_lt.mp hbs)]

theorem fuzzBest_fst (score : String → String → ℕ) (rs : List String) (j : String) :
    (fuzzBest score rs j).1 = rs.foldl (fun a r => max a (score j r)) 0 :=
  fuzzBest_fold_fst score j rs 0 none

theorem fuzzBest_fold_snd (score : String → String → ℕ) (j : String) :
    ∀ (rs : List String) (b : ℕ) (m : Option String),
      (rs.foldl (fun acc r => if acc.1 < score j r then (score j r, some r) else acc) (b, m)).2
        = if (rs.foldl (fun acc r => if acc.1 < score j r then (score j r, some r) else acc) (b, m)).1 = b
          then m
          else rs.find? (fun r =>
            (rs.foldl (fun acc r => if acc.1 < score j r then (score j r, some r) else acc) (b, m)).1 ≤ score j r) := by
  intro rs
  induction rs with
  | nil => intro b m; simp
  | cons r rs ih =>
    intro b m
    simp only [List.foldl_cons]
    have hfst : ∀ (b' : ℕ) (m' : Option String),
        b' ≤ (rs.foldl (fun acc r => if acc.1 < score j r then (score j r, some r) else acc) (b', m')).1 := by
      intro b' m'
      rw [fuzzBest_fold_fst]
      exact le_foldl_max _ _ _
    by_cases hbs : b < score j r
    · simp only [if_pos hbs]
      rw [ih (score j r) (some r)]
      set F := (rs.foldl (fun acc r => if acc.1 < score j r then (score j r, some r) else acc)
        (score j r, some r)).1 with hF
      have hFs : score j r ≤ F := hfst _ _
      have hFb : F ≠ b := by omega
      rw [if_neg hFb]
      by_cases hFeq : F = score j r
      · rw [if_pos hFeq, List.find?_cons_of_pos _ (by simp [hFeq])]
      · have hlt : score j r < F := lt_of_le_of_ne hFs (Ne.symm hFeq)
        rw [if_neg hFeq, List.find?_cons_of_neg _ (by simp; omega)]
    · simp only [if_neg hbs]
      rw [ih b m]
      set F := (rs.foldl (fun acc r => if acc.1 < score j r then (score j r, some r) else acc)
        (b, m)).1 with hF
      have hFb : b ≤ F := hfst _ _
      by_cases hFeq : F = b
      · rw [if_pos hFeq, if_pos hFeq]
      · have hlt : b < F := lt_of_le_of_ne hFb (Ne.symm hFeq)
        have hrs : score j r ≤ b := not_lt.mp hbs
        rw [if_neg hFeq, if_neg hFeq, List.find?_cons_of_neg _ (by simp; omega)]

theorem fuzzBest_snd (score : String → String → ℕ) (rs : List String) (j : String) :
    (fuzzBest score rs j).2 =
      if (fuzzBest score rs j).1 = 0 then none
      else rs.find? (fun r => (fuzzBest score rs j).1 ≤ score j r) :=
  fuzzBest_fold_snd score j rs 0 none

theorem length_filterMap_ite {α β : Type} (q : α → Prop) [DecidablePred q] (g : α → β) :
    ∀ l : List α,
      (l.filterMap (fun a => if q a then some (g a) else none)).length
        = l.countP (fun a => q a) := by
  intro l
  induction l with
  | nil => rfl
  | cons x xs ih =>
    by_cases hx : q x <;>
      simp [List.filterMap_cons, List.countP_cons, hx, ih]

theorem map_filterMap_ite {α β : Type} (q : α → Prop) [DecidablePred q] (g : α → β)
    (h : β → α) (hgh : ∀ a, h (g a) = a) :
    ∀ l : List α,
      (l.filterMap (fun a => if q a then some (g a) else none)).map h
        = l.filter (fun a => q a) := by
  intro l
  induction l with
  | nil => rfl
  | cons x xs ih =>
    by_cases hx : q x <;>
      simp [List.filterMap_cons, List.filter_cons, hx, ih, hgh]

/-! ### Specification predicates -/

/-- Well-formedness of a MatchReport, per the spec's data model: every
percentage-valued signal read by the scorer lies in [0, 100]. -/
abbrev MatchReport.WF (m : MatchReport) : Prop :=
  (0 ≤ m.exact_pct ∧ m.exact_pct ≤ 100) ∧
  (0 ≤ m.fuzzy_pct ∧ m.fuzzy_pct ≤ 100) ∧
  (0 ≤ m.bm25_norm ∧ m.bm25_norm ≤ 100) ∧
  (0 ≤ m.tfidf_pct ∧ m.tfidf_pct ≤ 100)

/-- The optional embedding similarity, when supplied, lies in [0, 100]. -/
abbrev embOK : Option ℚ → Prop
  | none => True
  | some e => 0 ≤ e ∧ e ≤ 100

/-! ### Claim theorems -/

/-- C2: for every MatchReport (quantified here over fully populated
sections; absent sections default every read to 0 / false),
keyword_score = exact*0.5 + fuzzy*0.3 + bm25*0.2 capped at 100;
semantic_score is the TF-IDF percentage (capped at 100) without an
embedding similarity, else tfidf*0.4 + embedding*0.6 capped at 100;
bonus_score = 5·has_experience + 3·has_degree + 7·(exact% > 80) capped
at 15. -/
theorem sub_score_formulas (ex : ExactSkillMatchResult) (fz : FuzzySkillMatchResult)
    (bm : Bm25MatchResult) (tf : TfidfMatchResult) (xp : ExperienceMatchResult)
    (ed : EducationMatchResult) (om : Option OverallMetrics) (err : Option String)
    (emb : ℚ) :
    let mr : MatchReport :=
      { exact_skill_match := some ex, fuzzy_skill_match := some fz,
        bm25_match := some bm, tfidf_match := some tf,
        experience_match := some xp, education_match := some ed,
        overall_metrics := om, error := err }
    calculate_keyword_score mr =
      min (ex.match_percentage * 0.5 + fz.fuzzy_match_percentage * 0.3 +
        bm.normalized_score * 0.2) 100 ∧
    calculate_semantic_score mr none = min tf.similarity_percentage 100 ∧
    calculate_semantic_score mr (some emb) =
      min (tf.similarity_percentage * 0.4 + emb * 0.6) 100 ∧
    calculate_bonus_scores mr =
      min ((if xp.has_experience then (5:ℚ) else 0) +
           (if ed.has_degree then (3:ℚ) else 0) +
           (if 80 < ex.match_percentage then (7:ℚ) else 0)) 15 := by
  refine ⟨rfl, rfl, rfl, rfl⟩

/-- C3 (amended): exact_skill_match lowercases both lists, matches by
membership, reports `matched/total*100` (0 for an empty job list), and on
the scenario resume `["python","sql"]` against job
`["python","sql","aws"]` returns matched `["python","sql"]`, missing
`["aws"]` and match_percentage 200/3 (= 66.666..., which prints as 66.67
at two decimals but is not exactly 66.67). -/
theorem exact_match_contract : ∀ (resume_skills job_skills : List String),
    (exact_skill_match resume_skills job_skills).matched_skills =
      (job_skills.map lowerStr).filter
        (fun j => (resume_skills.map lowerStr).contains j) ∧
    (exact_skill_match resume_skills job_skills).missing_skills =
      (job_skills.map lowerStr).filter
        (fun j => !((resume_skills.map lowerStr).contains j)) ∧
    (exact_skill_match resume_skills job_skills).match_percentage =
      (if job_skills.isEmpty then 0
       else ((exact_skill_match resume_skills job_skills).matched_count : ℚ) /
         (job_skills.length : ℚ) * 100) ∧
    (exact_skill_match resume_skills []).match_percentage = 0 ∧
    (exact_skill_match ["python", "sql"] ["python", "sql", "aws"]).matched_skills =
      ["python", "sql"] ∧
    (exact_skill_match ["python", "sql"] ["python", "sql", "aws"]).missing_skills =
      ["aws"] ∧
    (exact_skill_match ["python", "sql"] ["python", "sql", "aws"]).match_percentage =
      200 / 3 := by
  have hgen : ∀ (rs js : List String),
      (exact_skill_match rs js).match_percentage =
        (if js.isEmpty then 0
         else ((exact_skill_match rs js).matched_count : ℚ) / (js.length : ℚ) * 100) := by
    intro rs js
    cases js with
    | nil => simp [exact_skill_match]
    | cons a l => simp [exact_skill_match]
  intro resume_skills job_skills
  refine ⟨rfl, rfl, hgen _ _, by simp [exact_skill_match], by decide, by decide, ?_⟩
  rw [hgen]
  have hcount : (exact_skill_match ["python", "sql"] ["python", "sql", "aws"]).matched_count
      = 2 := by decide
  rw [hcount]
  norm_num

/-- C3 counterexample: the claim asserts the scenario match_percentage is
exactly 66.67, but the code returns (2/3)*100 = 200/3 = 66.666..., which
differs from 66.67. -/
theorem exact_scenario_not_66_67 :
    (exact_skill_match ["python", "sql"] ["python", "sql", "aws"]).match_percentage = 200 / 3
    ∧ (exact_skill_match ["python", "sql"] ["python", "sql", "aws"]).match_percentage
      ≠ 6667 / 100 := by
  have hcount : (exact_skill_match ["python", "sql"] ["python", "sql", "aws"]).matched_count
      = 2 := by decide
  have hgen : (exact_skill_match ["python", "sql"] ["python", "sql", "aws"]).match_percentage
      = 200 / 3 := by
    show (if (["python", "sql", "aws"].map lowerStr).isEmpty then (0:ℚ)
      else ((exact_skill_match ["python", "sql"] ["python", "sql", "aws"]).matched_count : ℚ) /
        ((["python", "sql", "aws"].map lowerStr).length : ℚ) * 100) = 200 / 3
    rw [hcount]
    norm_num [lowerStr]
  refine ⟨hgen, ?_⟩
  rw [hgen]
  norm_num

/-- C6: the comprehensive similarity weighted average is exactly
0.4·tfidf + 0.3·bm25 + 0.2·jaccard + 0.1·overlap, where the four
percentages are those returned by the four individual methods on the
same pair of texts (for any behaviour of the two external engines). -/
theorem comprehensive_similarity_weights
    (tfidfEngine : String → String → Except String ℚ)
    (bm25Engine : List String → List String → Except String (ℚ × ℚ))
    (text1 text2 : String) :
    (calculate_comprehensive_similarity tfidfEngine bm25Engine text1 text2).weighted_average =
      0.4 * (calculate_tfidf_similarity tfidfEngine text1 text2).similarity_percentage +
      0.3 * (calculate_bm25_similarity bm25Engine text1 text2).similarity_percentage +
      0.2 * (calculate_jaccard_similarity text1 text2).similarity_percentage +
      0.1 * (calculate_word_overlap text1 text2).similarity_percentage := by
  unfold calculate_comprehensive_similarity
  ring

/-- A TF-IDF collaborator that always fails, as the sklearn vectorizer
does on an empty vocabulary. -/
def failingTfidfEngine : String → String → Except String ℚ :=
  fun _ _ => Except.error ("empty vocabulary")

/-- A BM25 collaborator that always fails. -/
def failingBm25Engine : List String → List String → Except String (ℚ × ℚ) :=
  fun _ _ => Except.error ("empty corpus")

/-- C7: the similarity primitives are total.  Jaccard and word overlap
guard every division (by the union size, resp. by each set's size) with
an emptiness test and carry no error field; texts with no tokens give 0%
similarity rather than a division error; and the TF-IDF / BM25 methods
absorb a failing external engine into a 0% result instead of raising. -/
theorem similarity_primitives_total (text1 text2 : String) :
    (calculate_jaccard_similarity text1 text2).error = none ∧
    (calculate_word_overlap text1 text2).error = none ∧
    (calculate_jaccard_similarity text1 text2).jaccard_score =
      (if 0 < (calculate_jaccard_similarity text1 text2).union_size
       then ((calculate_jaccard_similarity text1 text2).intersection_size : ℚ) /
         ((calculate_jaccard_similarity text1 text2).union_size : ℚ)
       else 0) ∧
    (calculate_jaccard_similarity text1 text2).similarity_percentage =
      (calculate_jaccard_similarity text1 text2).jaccard_score * 100 ∧
    (calculate_word_overlap text1 text2).overlap_frac_text1 =
      (if 0 < (tokenize_text text1).dedup.length
       then ((calculate_word_overlap text1 text2).word_overlap_count : ℚ) /
         ((tokenize_text text1).dedup.length : ℚ)
       else 0) ∧
    (calculate_word_overlap text1 text2).overlap_frac_text2 =
      (if 0 < (tokenize_text text2).dedup.length
       then ((calculate_word_overlap text1 text2).word_overlap_count : ℚ) /
         ((tokenize_text text2).dedup.length : ℚ)
       else 0) ∧
    (calculate_word_overlap text1 text2).average_overlap_frac =
      ((calculate_word_overlap text1 text2).overlap_frac_text1 +
       (calculate_word_overlap text1 text2).overlap_frac_text2) / 2 ∧
    (calculate_word_overlap text1 text2).similarity_percentage =
      (calculate_word_overlap text1 text2).average_overlap_frac * 100 ∧
    (calculate_jaccard_similarity ("") ("!! ??")).similarity_percentage = 0 ∧
    (calculate_word_overlap ("") ("!! ??")).similarity_percentage = 0 ∧
    (calculate_tfidf_similarity failingTfidfEngine text1 text2).similarity_percentage = 0 ∧
    (calculate_bm25_similarity failingBm25Engine text1 text2).similarity_percentage = 0 := by
  have htok : tokenize_text ("!! ??") = [] := by decide
  have htok0 : tokenize_text ("") = [] := by decide
  refine ⟨rfl, rfl, rfl, rfl, rfl, rfl, rfl, rfl, ?_, ?_, rfl, rfl⟩
  · simp [calculate_jaccard_similarity, htok, htok0]
  · simp [calculate_word_overlap, htok, htok0]

/-- C8: neither aggregation operation raises.  `comprehensive_match`
always returns a plain MatchReport: either a normal report (error-free;
the only possibility here, since every guarded operation of the body is
total) or, through its catch wrapper, the MatchReport holding only an
`error` field; `calculate_comprehensive_score` likewise returns either a
normal breakdown or, through its catch wrapper, the zeroed breakdown
with final_score 0, verdict "Low" and an `error` field. -/
theorem aggregation_error_contract
    (ratioFn partialFn tokenFn : String → String → ℕ)
    (bm25Engine : List String → List String → Except String ℚ)
    (tfidfEngine : String → String → Except String ℚ)
    (resume_data : ResumeData) (job_data : JobData)
    (cfg : ScorerConfig) (mr : MatchReport) (emb : Option ℚ) (e : String) :
    ((comprehensive_match ratioFn partialFn tokenFn bm25Engine tfidfEngine
        resume_data job_data).error = none ∨
      ∃ msg, comprehensive_match ratioFn partialFn tokenFn bm25Engine tfidfEngine
        resume_data job_data = MatchReport.errorOnly msg) ∧
    matchCatch (Except.error e) = MatchReport.errorOnly e ∧
    MatchReport.errorOnly e =
      { exact_skill_match := none, fuzzy_skill_match := none, bm25_match := none,
        tfidf_match := none, experience_match := none, education_match := none,
        overall_metrics := none, error := some e } ∧
    ((calculate_comprehensive_score cfg mr emb).error = none ∨
      ∃ msg, calculate_comprehensive_score cfg mr emb =
        { final_score := 0, verdict := "Low", error := some msg }) ∧
    scoreCatch (Except.error e) =
      { final_score := 0, verdict := "Low", error := some e } := by
  exact ⟨Or.inl rfl, rfl, rfl, Or.inl rfl, rfl⟩

/-- C9: with the generative-text service absent (`llm = none`) or failing
(any error-returning invocation), `generate_personalized_feedback`
returns exactly the rule-based fallback; the fallback equals a function
of the final-score tier (≥75 / ≥50 / else) and the matched / missing
skill lists alone; and it is never the empty string. -/
theorem feedback_fallback_contract (resume_data : ResumeData) (job_data : JobData)
    (scoring_results : ScoreBreakdown) (match_results : MatchReport)
    (failure : FeedbackContext → String) :
    generate_personalized_feedback none resume_data job_data scoring_results match_results
      = generate_fallback_feedback scoring_results match_results ∧
    generate_personalized_feedback (some (fun c => Except.error (failure c)))
      resume_data job_data scoring_results match_results
      = generate_fallback_feedback scoring_results match_results ∧
    generate_fallback_feedback scoring_results match_results
      = tierFeedbackText (feedbackTier scoring_results.final_score)
          ((match_results.exact_skill_match.map ExactSkillMatchResult.matched_skills).getD [])
          ((match_results.exact_skill_match.map ExactSkillMatchResult.missing_skills).getD []) ∧
    generate_fallback_feedback scoring_results match_results ≠ "" := by
  have append_ne_empty : ∀ (a b : String), a.length ≠ 0 → a ++ b ≠ "" := by
    intro a b ha hc
    have hl := congrArg String.length hc
    rw [String.length_append] at hl
    have : String.length "" = 0 := rfl
    omega
  refine ⟨rfl, rfl, ?_, ?_⟩
  · unfold generate_fallback_feedback tierFeedbackText feedbackTier
    by_cases h75 : (75:ℚ) ≤ scoring_results.final_score
    · simp [h75]
    · by_cases h50 : (50:ℚ) ≤ scoring_results.final_score <;> simp [h75, h50]
  · unfold generate_fallback_feedback
    dsimp only
    split_ifs
    · exact append_ne_empty _ _ (by decide)
    · exact append_ne_empty _ _ (by decide)
    · exact append_ne_empty _ _ (by decide)

/-- A MatchReport with none of the per-technique sections — in
particular the error-only report of a failed `comprehensive_match`. -/
abbrev LacksMatchData (m : MatchReport) : Prop :=
  m.exact_skill_match = none ∧ m.fuzzy_skill_match = none ∧ m.bm25_match = none ∧
  m.tfidf_match = none ∧ m.experience_match = none ∧ m.education_match = none

/-- C10: scoring a MatchReport that lacks every per-technique section
(such as the error-only report) with no embedding similarity silently
defaults every read to 0 / false and returns a normal ScoreBreakdown with
final_score 0.0, verdict "Low" and no `error` field — indistinguishable,
by the error-field check, from a genuine zero score. -/
theorem error_report_scores_zero_silently (mr : MatchReport) (h : LacksMatchData mr) :
    (calculate_comprehensive_score defaultScorerConfig mr none).final_score = 0 ∧
    (calculate_comprehensive_score defaultScorerConfig mr none).verdict = "Low" ∧
    (calculate_comprehensive_score defaultScorerConfig mr none).error = none := by
  obtain ⟨h1, h2, h3, h4, h5, h6⟩ := h
  have he : mr.exact_pct = 0 := by simp [MatchReport.exact_pct, h1]
  have hf : mr.fuzzy_pct = 0 := by simp [MatchReport.fuzzy_pct, h2]
  have hb : mr.bm25_norm = 0 := by simp [MatchReport.bm25_norm, h3]
  have ht : mr.tfidf_pct = 0 := by simp [MatchReport.tfidf_pct, h4]
  have hxp : mr.has_experience = false := by simp [MatchReport.has_experience, h5]
  have hed : mr.has_degree = false := by simp [MatchReport.has_degree, h6]
  refine ⟨?_, ?_, rfl⟩ <;>
    norm_num [calculate_comprehensive_score, comprehensive_score_body, scoreCatch,
      calculate_keyword_score, calculate_semantic_score, calculate_bonus_scores,
      calculate_weighted_score, determine_verdict, defaultScorerConfig,
      he, hf, hb, ht, hxp, hed, min_def, round2, pyRoundInt]

/-- Witness for C10 at the concrete error-only report. -/
theorem error_report_scores_zero_silently_witness :
    LacksMatchData (MatchReport.errorOnly ("boom")) ∧
    ((calculate_comprehensive_score defaultScorerConfig (MatchReport.errorOnly ("boom"))
        none).final_score = 0 ∧
     (calculate_comprehensive_score defaultScorerConfig (MatchReport.errorOnly ("boom"))
        none).verdict = "Low" ∧
     (calculate_comprehensive_score defaultScorerConfig (MatchReport.errorOnly ("boom"))
        none).error = none) :=
  ⟨⟨rfl, rfl, rfl, rfl, rfl, rfl⟩,
    error_report_scores_zero_silently _ ⟨rfl, rfl, rfl, rfl, rfl, rfl⟩⟩

/-- The comprehensive-scoring contract at a given report and embedding
similarity (default configuration): the reported final_score is the
two-decimal rounding of `min(100, base_weighted_score + bonus_score)`;
the reported base_weighted_score is the two-decimal rounding of
`min(100, semantic*0.6 + keyword*0.4)`; the reported final_score lies in
[0, 100]; and the verdict buckets the UNROUNDED final score by the
default thresholds 75 / 50. -/
abbrev scorerContractAt (mr : MatchReport) (emb : Option ℚ) : Prop :=
  let sb := calculate_comprehensive_score defaultScorerConfig mr emb
  let keyword_score := calculate_keyword_score mr
  let semantic_score := calculate_semantic_score mr emb
  let bonus_score := calculate_bonus_scores mr
  let base := min (semantic_score * 0.6 + keyword_score * 0.4) 100
  let fs := min (base + bonus_score) 100
  sb.final_score = round2 fs ∧
  sb.score_breakdown.map ScoreDetail.base_weighted_score = some (round2 base) ∧
  0 ≤ sb.final_score ∧ sb.final_score ≤ 100 ∧
  (sb.verdict = "High" ↔ 75 ≤ fs) ∧
  (sb.verdict = "Medium" ↔ 50 ≤ fs ∧ fs < 75) ∧
  (sb.verdict = "Low" ↔ fs < 50)

/-- C1 (amended): for every well-formed MatchReport and optional
embedding similarity in [0,100], `calculate_comprehensive_score` with
the default configuration satisfies `scorerContractAt`: final_score =
round2(min(100, base + bonus)) with base = min(100, semantic*0.6 +
keyword*0.4), final_score ∈ [0,100], and the verdict thresholds applied
to the final score BEFORE its two-decimal rounding (not to the reported
rounded value, which can cross a threshold the unrounded score did
not reach). -/
theorem scorer_comprehensive_contract (mr : MatchReport) (emb : Option ℚ)
    (hwf : mr.WF) (hemb : embOK emb) : scorerContractAt mr emb := by
  obtain ⟨⟨he0, he1⟩, ⟨hf0, hf1⟩, ⟨hb0, hb1⟩, ⟨ht0, ht1⟩⟩ := hwf
  have hk0 : 0 ≤ calculate_keyword_score mr := by
    unfold calculate_keyword_score
    refine le_min ?_ (by norm_num)
    have h1 := mul_nonneg he0 (by norm_num : (0:ℚ) ≤ 0.5)
    have h2 := mul_nonneg hf0 (by norm_num : (0:ℚ) ≤ 0.3)
    have h3 := mul_nonneg hb0 (by norm_num : (0:ℚ) ≤ 0.2)
    linarith
  have hs0 : 0 ≤ calculate_semantic_score mr emb := by
    unfold calculate_semantic_score
    cases emb with
    | none => exact le_min ht0 (by norm_num)
    | some e =>
      obtain ⟨hemb0, hemb1⟩ := hemb
      refine le_min ?_ (by norm_num)
      have h1 := mul_nonneg ht0 (by norm_num : (0:ℚ) ≤ 0.4)
      have h2 := mul_nonneg hemb0 (by norm_num : (0:ℚ) ≤ 0.6)
      linarith
  have hbz : 0 ≤ calculate_bonus_scores mr := by
    unfold calculate_bonus_scores
    refine le_min ?_ (by norm_num)
    dsimp only
    split_ifs <;> norm_num
  have hbase0 : 0 ≤ min (calculate_semantic_score mr emb * 0.6 +
      calculate_keyword_score mr * 0.4) 100 := by
    refine le_min ?_ (by norm_num)
    have h1 := mul_nonneg hs0 (by norm_num : (0:ℚ) ≤ 0.6)
    have h2 := mul_nonneg hk0 (by norm_num : (0:ℚ) ≤ 0.4)
    linarith
  have hfs0 : 0 ≤ min (min (calculate_semantic_score mr emb * 0.6 +
      calculate_keyword_score mr * 0.4) 100 + calculate_bonus_scores mr) 100 :=
    le_min (by linarith) (by norm_num)
  have hfs1 : min (min (calculate_semantic_score mr emb * 0.6 +
      calculate_keyword_score mr * 0.4) 100 + calculate_bonus_scores mr) 100 ≤ 100 :=
    min_le_right _ _
  have hfseq : (calculate_weighted_score defaultScorerConfig (calculate_keyword_score mr)
      (calculate_semantic_score mr emb) + calculate_bonus_scores mr) ⊓ 100
      = ((calculate_semantic_score mr emb * 0.6 + calculate_keyword_score mr * 0.4) ⊓ 100 +
        calculate_bonus_scores mr) ⊓ 100 := rfl
  refine ⟨rfl, rfl, round2_nonneg _ hfs0, round2_le_hundred _ hfs1, ?_, ?_, ?_⟩
  all_goals
    show determine_verdict defaultScorerConfig _ = _ ↔ _
    unfold determine_verdict
  · show (if (75:ℚ) ≤ _ then "High" else if (50:ℚ) ≤ _ then "Medium" else "Low")
      = "High" ↔ _
    split_ifs with h1 h2
    · exact iff_of_true rfl h1
    · exact iff_of_false (by decide) h1
    · exact iff_of_false (by decide) h1
  · show (if (75:ℚ) ≤ _ then "High" else if (50:ℚ) ≤ _ then "Medium" else "Low")
      = "Medium" ↔ _
    split_ifs with h1 h2
    · exact iff_of_false (by decide) (fun hc => absurd h1 (not_le.mpr hc.2))
    · exact iff_of_true rfl ⟨h2, not_le.mp h1⟩
    · exact iff_of_false (by decide) (fun hc => h2 hc.1)
  · show (if (75:ℚ) ≤ _ then "High" else if (50:ℚ) ≤ _ then "Medium" else "Low")
      = "Low" ↔ _
    split_ifs with h1 h2
    · exact iff_of_false (by decide) (fun hc => absurd hc (not_lt.mpr (by linarith [hfseq])))
    · exact iff_of_false (by decide) (fun hc => absurd hc (not_lt.mpr (by linarith [hfseq])))
    · exact iff_of_true rfl (by linarith [hfseq, not_le.mp h2])

/-- Witness for C1's amended contract at the empty report. -/
theorem scorer_comprehensive_contract_witness :
    MatchReport.WF ({} : MatchReport) ∧ embOK none ∧
    scorerContractAt ({} : MatchReport) none :=
  ⟨by norm_num [MatchReport.WF, MatchReport.exact_pct, MatchReport.fuzzy_pct,
      MatchReport.bm25_norm, MatchReport.tfidf_pct],
   trivial,
   scorer_comprehensive_contract _ _
     (by norm_num [MatchReport.WF, MatchReport.exact_pct, MatchReport.fuzzy_pct,
        MatchReport.bm25_norm, MatchReport.tfidf_pct])
     trivial⟩

/-- A well-formed MatchReport on which the unrounded final score is
74.996: fuzzy and exact signals zero, BM25 normalized score 87.45,
TF-IDF percentage 100, experience and degree present (bonus 8).  Base =
min(100, 100*0.6 + 17.49*0.4) = 66.996, final = 74.996. -/
def scorerCexReport : MatchReport :=
  { exact_skill_match := some
      { matched_skills := [], missing_skills := [], match_percentage := 0,
        matched_count := 0, total_required := 0 }
    fuzzy_skill_match := some
      { matched_skills := [], missing_skills := [], skill_similarities := [],
        fuzzy_match_percentage := 0, threshold_used := 80 }
    bm25_match := some { bm25_score := 8.745, normalized_score := 87.45 }
    tfidf_match := some { tfidf_similarity := 1, similarity_percentage := 100 }
    experience_match := some
      { resume_max_years := 0, has_experience := true, experience_details := [] }
    education_match := some
      { has_degree := true, education_types := [], education_details := [] } }

/-- C1 counterexample: on `scorerCexReport` (a well-formed report) the
unrounded final score is 74.996, so the verdict is "Medium", yet the
reported final_score rounds up to exactly 75.0 — refuting the claim that
the verdict is "High" if and only if the reported final_score is ≥ the
high threshold 75. -/
theorem verdict_diverges_from_rounded_score :
    MatchReport.WF scorerCexReport ∧
    (calculate_comprehensive_score defaultScorerConfig scorerCexReport none).final_score = 75 ∧
    (calculate_comprehensive_score defaultScorerConfig scorerCexReport none).verdict
      = "Medium" := by
  have hpcts : scorerCexReport.exact_pct = 0 ∧ scorerCexReport.fuzzy_pct = 0 ∧
      scorerCexReport.bm25_norm = 87.45 ∧ scorerCexReport.tfidf_pct = 100 ∧
      scorerCexReport.has_experience = true ∧ scorerCexReport.has_degree = true :=
    ⟨rfl, rfl, rfl, rfl, rfl, rfl⟩
  obtain ⟨q1, q2, q3, q4, q5, q6⟩ := hpcts
  have hk : calculate_keyword_score scorerCexReport = 17.49 := by
    norm_num [calculate_keyword_score, q1, q2, q3, min_def]
  have hs : calculate_semantic_score scorerCexReport none = 100 := by
    norm_num [calculate_semantic_score, q4, min_def]
  have hb : calculate_bonus_scores scorerCexReport = 8 := by
    norm_num [calculate_bonus_scores, q1, q5, q6, min_def]
  refine ⟨⟨by norm_num [q1], by norm_num [q2], by norm_num [q3], by norm_num [q4]⟩, ?_, ?_⟩
  · show round2 (min (calculate_weighted_score defaultScorerConfig
      (calculate_keyword_score scorerCexReport)
      (calculate_semantic_score scorerCexReport none) +
      calculate_bonus_scores scorerCexReport) 100) = 75
    rw [hk, hs, hb]
    norm_num [calculate_weighted_score, defaultScorerConfig, min_def, round2, pyRoundInt]
  · show determine_verdict defaultScorerConfig
      (min (calculate_weighted_score defaultScorerConfig
        (calculate_keyword_score scorerCexReport)
        (calculate_semantic_score scorerCexReport none) +
        calculate_bonus_scores scorerCexReport) 100) = "Medium"
    rw [hk, hs, hb]
    norm_num [calculate_weighted_score, defaultScorerConfig, min_def, determine_verdict]

/-- C4: structure of `fuzzy_skill_match`.  Each matched entry records the
job skill, the best-scoring resume skill and the per-pair maximum of the
three ratio scores; a job skill is matched iff its best candidate score
meets the threshold; unmatched job skills land in the missing list;
fuzzy_match_percentage = matched/total*100 with 0 for an empty job list;
the best score is the running maximum over candidate skills of the
per-pair maximum `pairScore`; and ties go to the first-encountered
candidate attaining that maximum (`List.find?`). -/
theorem fuzzy_match_contract (ratioFn partialFn tokenFn : String → String → ℕ)
    (resume_skills job_skills : List String) (threshold : ℕ) :
    (fuzzy_skill_match ratioFn partialFn tokenFn resume_skills job_skills
        threshold).matched_skills = job_skills.filterMap (fun j =>
      if threshold ≤ (fuzzBest (pairScore ratioFn partialFn tokenFn) resume_skills j).1
      then some ⟨j, (fuzzBest (pairScore ratioFn partialFn tokenFn) resume_skills j).2,
        (fuzzBest (pairScore ratioFn partialFn tokenFn) resume_skills j).1⟩
      else none) ∧
    (fuzzy_skill_match ratioFn partialFn tokenFn resume_skills job_skills
        threshold).matched_skills.map FuzzyMatchedSkill.job_skill =
      job_skills.filter (fun j =>
        threshold ≤ (fuzzBest (pairScore ratioFn partialFn tokenFn) resume_skills j).1) ∧
    (∀ j, j ∈ (fuzzy_skill_match ratioFn partialFn tokenFn resume_skills job_skills
        threshold).missing_skills ↔
      j ∈ job_skills ∧
        (fuzzBest (pairScore ratioFn partialFn tokenFn) resume_skills j).1 < threshold) ∧
    (fuzzy_skill_match ratioFn partialFn tokenFn resume_skills job_skills
        threshold).fuzzy_match_percentage =
      (if job_skills.isEmpty then 0
       else ((job_skills.countP (fun j =>
          threshold ≤ (fuzzBest (pairScore ratioFn partialFn tokenFn) resume_skills j).1) : ℚ)
         / (job_skills.length : ℚ)) * 100) ∧
    (∀ j, (fuzzBest (pairScore ratioFn partialFn tokenFn) resume_skills j).1 =
      resume_skills.foldl
        (fun a r => max a (pairScore ratioFn partialFn tokenFn j r)) 0) ∧
    (∀ j, (fuzzBest (pairScore ratioFn partialFn tokenFn) resume_skills j).2 =
      if (fuzzBest (pairScore ratioFn partialFn tokenFn) resume_skills j).1 = 0 then none
      else resume_skills.find? (fun r =>
        (fuzzBest (pairScore ratioFn partialFn tokenFn) resume_skills j).1 ≤
          pairScore ratioFn partialFn tokenFn j r)) := by
  have hm : (fuzzy_skill_match ratioFn partialFn tokenFn resume_skills job_skills
        threshold).matched_skills.length
      = job_skills.countP (fun j =>
          threshold ≤ (fuzzBest (pairScore ratioFn partialFn tokenFn) resume_skills j).1) :=
    length_filterMap_ite
      (fun j => threshold ≤ (fuzzBest (pairScore ratioFn partialFn tokenFn) resume_skills j).1)
      (fun j => (⟨j, (fuzzBest (pairScore ratioFn partialFn tokenFn) resume_skills j).2,
        (fuzzBest (pairScore ratioFn partialFn tokenFn) resume_skills j).1⟩ : FuzzyMatchedSkill))
      job_skills
  refine ⟨rfl, ?_, ?_, ?_, fun j => fuzzBest_fst _ _ _, fun j => fuzzBest_snd _ _ _⟩
  · exact map_filterMap_ite
      (fun j => threshold ≤ (fuzzBest (pairScore ratioFn partialFn tokenFn) resume_skills j).1)
      (fun j => (⟨j, (fuzzBest (pairScore ratioFn partialFn tokenFn) resume_skills j).2,
        (fuzzBest (pairScore ratioFn partialFn tokenFn) resume_skills j).1⟩ : FuzzyMatchedSkill))
      FuzzyMatchedSkill.job_skill (fun _ => rfl) job_skills
  · intro j
    simp [fuzzy_skill_match, List.mem_filter]
  · show (if job_skills.isEmpty then (0:ℚ)
      else (((fuzzy_skill_match ratioFn partialFn tokenFn resume_skills job_skills
        threshold).matched_skills.length : ℚ) / (job_skills.length : ℚ)) * 100) = _
    rw [hm]

/-- Hypothesis for C5: the supplied ratio scorers give every
(lowercase-)identical pair drawn from the two lists a per-pair score of
at least 100 — as the fuzzywuzzy ratios do, every ratio of a string with
itself being 100. -/
abbrev fuzzMatchesExact (ratioFn partialFn tokenFn : String → String → ℕ)
    (resume_skills job_skills : List String) : Prop :=
  ∀ j ∈ job_skills, ∀ r ∈ resume_skills, lowerStr j = lowerStr r →
    100 ≤ pairScore ratioFn partialFn tokenFn j r

/-- C5: for every pair of skill lists and threshold ≤ 100 (with ratio
scorers that give exact case-insensitive matches a score ≥ 100),
`fuzzy_skill_match` returns a fuzzy_match_percentage ≥ the
match_percentage of `exact_skill_match` on the same lists. -/
theorem fuzzy_dominates_exact (ratioFn partialFn tokenFn : String → String → ℕ)
    (resume_skills job_skills : List String) (threshold : ℕ)
    (hthr : threshold ≤ 100)
    (hex : fuzzMatchesExact ratioFn partialFn tokenFn resume_skills job_skills) :
    (exact_skill_match resume_skills job_skills).match_percentage ≤
      (fuzzy_skill_match ratioFn partialFn tokenFn resume_skills job_skills
        threshold).fuzzy_match_percentage := by
  cases job_skills with
  | nil => simp [exact_skill_match, fuzzy_skill_match]
  | cons a l =>
    have hex_pct : (exact_skill_match resume_skills (a :: l)).match_percentage
        = ((((a :: l).map lowerStr).filter
            (fun j => (resume_skills.map lowerStr).contains j)).length : ℚ)
          / (((a :: l).length : ℕ) : ℚ) * 100 := by
      simp [exact_skill_match]
    have hm : (fuzzy_skill_match ratioFn partialFn tokenFn resume_skills (a :: l)
          threshold).matched_skills.length
        = (a :: l).countP (fun j =>
            threshold ≤ (fuzzBest (pairScore ratioFn partialFn tokenFn) resume_skills j).1) :=
      length_filterMap_ite
        (fun j => threshold ≤ (fuzzBest (pairScore ratioFn partialFn tokenFn) resume_skills j).1)
        (fun j => (⟨j, (fuzzBest (pairScore ratioFn partialFn tokenFn) resume_skills j).2,
          (fuzzBest (pairScore ratioFn partialFn tokenFn) resume_skills j).1⟩ : FuzzyMatchedSkill))
        (a :: l)
    have hfz_pct : (fuzzy_skill_match ratioFn partialFn tokenFn resume_skills (a :: l)
          threshold).fuzzy_match_percentage
        = (((a :: l).countP (fun j =>
            threshold ≤ (fuzzBest (pairScore ratioFn partialFn tokenFn) resume_skills j).1) : ℚ))
          / (((a :: l).length : ℕ) : ℚ) * 100 := by
      show (if (a :: l).isEmpty then (0:ℚ)
        else (((fuzzy_skill_match ratioFn partialFn tokenFn resume_skills (a :: l)
          threshold).matched_skills.length : ℚ) / (((a :: l).length : ℕ) : ℚ)) * 100) = _
      rw [hm]
      simp
    have hcount : (((a :: l).map lowerStr).filter
          (fun j => (resume_skills.map lowerStr).contains j)).length
        ≤ (a :: l).countP (fun j =>
            threshold ≤ (fuzzBest (pairScore ratioFn partialFn tokenFn) resume_skills j).1) := by
      rw [← List.countP_eq_length_filter, List.countP_map]
      refine List.countP_mono_left ?_
      intro j hj hpj
      have hmem : lowerStr j ∈ resume_skills.map lowerStr := by
        simpa using hpj
      obtain ⟨r, hr, hrl⟩ := List.mem_map.mp hmem
      have h100 : 100 ≤ pairScore ratioFn partialFn tokenFn j r := hex j hj r hr hrl.symm
      have hbest : pairScore ratioFn partialFn tokenFn j r ≤
          (fuzzBest (pairScore ratioFn partialFn tokenFn) resume_skills j).1 := by
        rw [fuzzBest_fst]
        exact le_foldl_max_of_mem _ _ _ _ hr
      simp only [decide_eq_true_eq]
      omega
    rw [hex_pct, hfz_pct]
    have hn : (0:ℚ) < (((a :: l).length : ℕ) : ℚ) := by
      exact_mod_cast Nat.succ_pos l.length
    have hq : ((((a :: l).map lowerStr).filter
          (fun j => (resume_skills.map lowerStr).contains j)).length : ℚ)
        ≤ (((a :: l).countP (fun j =>
            threshold ≤ (fuzzBest (pairScore ratioFn partialFn tokenFn) resume_skills j).1) : ℕ) : ℚ) := by
      exact_mod_cast hcount
    have := (div_le_div_iff_of_pos_right hn).mpr hq
    exact mul_le_mul_of_nonneg_right this (by norm_num)

/-- A ratio scorer giving 100 on identical strings and 0 otherwise. -/
def eqScore100 : String → String → ℕ := fun a b => if a = b then 100 else 0

/-- A ratio scorer that always gives 0. -/
def zeroScore : String → String → ℕ := fun _ _ => 0

/-- Witness for C5 at concrete inputs. -/
theorem fuzzy_dominates_exact_witness :
    (80 : ℕ) ≤ 100 ∧
    fuzzMatchesExact eqScore100 zeroScore zeroScore ["Python", "SQL"] ["python", "aws"] ∧
    (exact_skill_match ["Python", "SQL"] ["python", "aws"]).match_percentage ≤
      (fuzzy_skill_match eqScore100 zeroScore zeroScore ["Python", "SQL"] ["python", "aws"]
        80).fuzzy_match_percentage :=
  ⟨by decide, by decide,
    fuzzy_dominates_exact eqScore100 zeroScore zeroScore _ _ 80 (by decide) (by decide)⟩

end ResumeRelevance
